import Mathlib

set_option maxRecDepth 8192

/-
  Shallow embedding of the offline-first synchronization core of the
  expenses_tracker repository: the local storage gateway
  (src/services/offlineStorage.ts) and the canonical Sync Engine revision
  (the `SyncService` that guards sync() with throttling and a failure
  ceiling and exposes performFullSync()).

  Local ids, timestamps and the `crypto.randomUUID()` supply are modelled
  as naturals drawn from counters carried in the database state; the
  remote client is an oracle returning the uniform `{ success, data }`
  result shape it normalizes every response into.
-/

namespace ExpenseTracker

/-- Sync metadata embedded in each local record (`SyncMetadata` in
offlineStorage.ts). `id` is the locally generated opaque identifier
(`crypto.randomUUID()`), modelled as a natural drawn from a counter;
`cloudId` is the remote identifier when the record has been accepted
remotely. -/
structure SyncMetadata where
  id : Nat
  lastSyncedAt : Option Nat
  pendingSync : Bool
  cloudId : Option String
deriving Repr, DecidableEq

/-- Business fields of a `Receipt` (types/expenses.ts). Dates are
timezone-naive millisecond instants; amounts are integers. -/
structure ReceiptFields where
  date : Nat
  totalAmount : Int
  imageUrl : Option String
  merchant : Option String
  processed : Bool
deriving Repr, DecidableEq

/-- Business fields of an `Item` (types/expenses.ts). -/
structure ItemFields where
  receiptId : Nat
  name : String
  quantity : Nat
  price : Int
  date : Nat
deriving Repr, DecidableEq

/-- A row of a Dexie table with sync support (`LocalReceipt` /
`LocalItem`): an autoincrement primary key `id`, the business fields, and
optional sync metadata. -/
structure LocalRec (α : Type) where
  id : Nat
  fields : α
  syncMeta : Option SyncMetadata
deriving Repr, DecidableEq

abbrev LocalReceipt := LocalRec ReceiptFields
abbrev LocalItem := LocalRec ItemFields

/-- The settings singleton row (`LocalUserSettings`); its fixed key is
`"user_settings"`, so only the payload is modelled. -/
structure LocalUserSettings where
  budget : Int
  syncMeta : Option SyncMetadata
deriving Repr, DecidableEq

/-- `Partial<UserSettings>`: an update object where an absent field means
"leave unchanged" (`budget` is the only business field). -/
structure SettingsUpdate where
  budget : Option Int
deriving Repr, DecidableEq

inductive EntityType
  | receipt
  | item
  | settings
deriving Repr, DecidableEq

inductive SyncAction
  | create
  | update
  | delete
deriving Repr, DecidableEq

/-- The `data: unknown` payload snapshot carried by a SyncQueue entry. -/
inductive Payload
  | receiptData (fields : ReceiptFields)
  | itemData (fields : ItemFields)
  | settingsData (s : SettingsUpdate)
  | deleteData (localId : Nat) (cloudId : Option String)
deriving Repr, DecidableEq

/-- `SyncQueueItem` (offlineStorage.ts): one queued local change. -/
structure SyncQueueItem where
  id : Nat
  entityType : EntityType
  entityId : String
  action : SyncAction
  data : Payload
  createdAt : Nat
  retryCount : Nat
deriving Repr, DecidableEq

/-- The local Dexie database (`ExpenseTrackerDB`) together with the id
supplies. `syncQueue` is kept in creation (`createdAt`) order: entries are
only ever appended with a monotone clock, so `orderBy("createdAt")`
returns the list as stored. `nextUuid` models the `crypto.randomUUID()`
supply; `dataChangedEvents` counts the `expense-tracker:data-changed`
window events dispatched by the gateway. -/
structure DB where
  receipts : List LocalReceipt
  items : List LocalItem
  settings : Option LocalUserSettings
  syncQueue : List SyncQueueItem
  nextReceiptId : Nat
  nextItemId : Nat
  nextQueueId : Nat
  nextUuid : Nat
  dataChangedEvents : Nat
deriving Repr, DecidableEq

/-- `r.syncMeta?.cloudId`. -/
def cloudIdOf {α : Type} (r : LocalRec α) : Option String :=
  r.syncMeta.bind (·.cloudId)

/-- JS truthiness of an optional string: `undefined`/`null` and the empty
string are falsy; any other string passes through. -/
def truthyOf : Option String → Option String
  | some s => if s == "" then none else some s
  | none => none

/-- `!!c` for an optional string `c`. -/
def truthyStr (c : Option String) : Bool :=
  (truthyOf c).isSome

/-- The cloud id carried by a queue payload, read as the
`data as { cloudId?: string }` cast does: only a delete payload exposes
one; on every other shape the property is `undefined`. -/
def payloadCloudId : Payload → Option String
  | .deleteData _ c => c
  | _ => none

/-- `offlineStorage.queueSync` (offlineStorage.ts lines 194-213): append
a SyncQueue entry with `retryCount: 0` and dispatch the
`expense-tracker:data-changed` window event. -/
def queueSync (db : DB) (entityType : EntityType) (entityId : String)
    (action : SyncAction) (data : Payload) (now : Nat) : DB :=
  { db with
      syncQueue := db.syncQueue ++
        [⟨db.nextQueueId, entityType, entityId, action, data, now, 0⟩],
      nextQueueId := db.nextQueueId + 1,
      dataChangedEvents := db.dataChangedEvents + 1 }

/-- `offlineStorage.getPendingSyncItems`: the queue ordered by
`createdAt`; the stored list is maintained in creation order (see `DB`),
so the ordered read returns it as is. -/
def getPendingSyncItems (db : DB) : List SyncQueueItem :=
  db.syncQueue

/-- `offlineStorage.removeSyncItem`. -/
def removeSyncItem (db : DB) (qid : Nat) : DB :=
  { db with syncQueue := db.syncQueue.filter (fun q => q.id != qid) }

/-- `offlineStorage.incrementRetryCount` (offlineStorage.ts lines
223-227). The stored value is `(await get(id))?.retryCount ?? 0 + 1`;
JS `+` binds tighter than `??`, so this reads `retryCount ?? (0 + 1)`:
the entry's current `retryCount` when the entry exists (`retryCount` is
always a number on a stored entry), and `1` only when the entry is
absent, in which case `update` on the missing key is a no-op anyway. -/
def incrementRetryCount (db : DB) (qid : Nat) : DB :=
  let newCount :=
    match db.syncQueue.find? (fun q => q.id == qid) with
    | some q => q.retryCount
    | none => 0 + 1
  { db with
      syncQueue := db.syncQueue.map
        (fun q => if q.id == qid then { q with retryCount := newCount } else q) }

/-- Shared body of `markReceiptSynced` / `markItemSynced`: stamp fresh
sync metadata (new opaque id, current time, `pendingSync: false`, the
given cloud id) on the row with primary key `localId`. -/
def markSyncedRow {α : Type} (table : List (LocalRec α)) (localId : Nat)
    (cloudId : String) (uuid now : Nat) : List (LocalRec α) :=
  table.map (fun r =>
    if r.id == localId then
      { r with syncMeta := some ⟨uuid, some now, false, some cloudId⟩ }
    else r)

/-- `offlineStorage.markReceiptSynced`. -/
def markReceiptSynced (db : DB) (localId : Nat) (cloudId : String) (now : Nat) : DB :=
  { db with
      receipts := markSyncedRow db.receipts localId cloudId db.nextUuid now,
      nextUuid := db.nextUuid + 1 }

/-- `offlineStorage.markItemSynced`. -/
def markItemSynced (db : DB) (localId : Nat) (cloudId : String) (now : Nat) : DB :=
  { db with
      items := markSyncedRow db.items localId cloudId db.nextUuid now,
      nextUuid := db.nextUuid + 1 }

/-- `offlineStorage.markSettingsSynced`: refresh the singleton's sync
metadata when the row exists. -/
def markSettingsSynced (db : DB) (cloudId : String) (now : Nat) : DB :=
  match db.settings with
  | some cur =>
      { db with
          settings := some
            { cur with syncMeta := some ⟨db.nextUuid, some now, false, some cloudId⟩ },
          nextUuid := db.nextUuid + 1 }
  | none => db

/-- `offlineStorage.updateSettings` (offlineStorage.ts lines 159-191):
upsert the settings singleton (merge the partial input over the existing
row, or over the defaults), mark it pending, and enqueue an `update` (row
existed) or `create` (row absent) queue entry carrying the partial
input. -/
def updateSettings (db : DB) (s : SettingsUpdate) (now : Nat) : DB :=
  let db1 :=
    match db.settings with
    | some current =>
        { db with
            settings := some
              { budget := s.budget.getD current.budget,
                syncMeta := some
                  { id := match current.syncMeta with
                          | some m => m.id
                          | none => db.nextUuid,
                    lastSyncedAt := current.syncMeta.bind (·.lastSyncedAt),
                    pendingSync := true,
                    cloudId := current.syncMeta.bind (·.cloudId) } },
            nextUuid := match current.syncMeta with
                        | some _ => db.nextUuid
                        | none => db.nextUuid + 1 }
    | none =>
        { db with
            settings := some
              { budget := s.budget.getD 500,
                syncMeta := some ⟨db.nextUuid, none, true, none⟩ },
            nextUuid := db.nextUuid + 1 }
  queueSync db1 EntityType.settings "user_settings"
    (if db.settings.isSome then SyncAction.update else SyncAction.create)
    (Payload.settingsData s) now

/-- `offlineStorage.deleteReceipt` (offlineStorage.ts lines 92-102): if
the receipt exists, cascade-delete its items directly (no queue entries
for them), delete the receipt row, and enqueue a single `delete` entry
whose payload carries the receipt's previously known cloud id. -/
def deleteReceipt (db : DB) (localId : Nat) (now : Nat) : DB :=
  match db.receipts.find? (fun r => r.id == localId) with
  | none => db
  | some receipt =>
      let db1 := { db with
        items := db.items.filter (fun i => i.fields.receiptId != localId),
        receipts := db.receipts.filter (fun r => r.id != localId) }
      queueSync db1 EntityType.receipt (toString localId) SyncAction.delete
        (Payload.deleteData localId (cloudIdOf receipt)) now

/-- `getUnsyncedReceipts` / `getUnsyncedItems`: rows whose
`syncMeta?.cloudId` is falsy. -/
def getUnsyncedRows {α : Type} (table : List (LocalRec α)) : List (LocalRec α) :=
  table.filter (fun r => !truthyStr (cloudIdOf r))

/-- `getSyncedReceipts` / `getSyncedItems`: rows whose
`syncMeta?.cloudId` is truthy. -/
def getSyncedRows {α : Type} (table : List (LocalRec α)) : List (LocalRec α) :=
  table.filter (fun r => truthyStr (cloudIdOf r))

/-- An incoming remote record handed to bulk upsert: the business fields
plus the record's cloud id (`Omit<LocalReceipt, "id"> & { cloudId }`). -/
structure UpsertRec (α : Type) where
  fields : α
  cloudId : String
deriving Repr, DecidableEq

/-- `where("syncMeta.cloudId").equals(c).first()`. -/
def findByCloud {α : Type} (table : List (LocalRec α)) (c : String) :
    Option (LocalRec α) :=
  table.find? (fun r => cloudIdOf r == some c)

/-- Replace the first row matching cloud id `c` in place. The source
looks the row up by cloud id and then updates it by its primary key
(`update(existing.id!, ...)`); primary keys are unique, so exactly that
row is replaced. -/
def replaceByCloud {α : Type} (c : String) (f : LocalRec α → LocalRec α) :
    List (LocalRec α) → List (LocalRec α)
  | [] => []
  | r :: rs =>
      if cloudIdOf r == some c then f r :: rs
      else r :: replaceByCloud c f rs

/-- `existing?.syncMeta?.id ?? crypto.randomUUID()`: the matched row's
opaque metadata id when it has one, else a fresh uuid. -/
def metaIdOr (m? : Option SyncMetadata) (uuid : Nat) : Nat :=
  match m? with
  | some m => m.id
  | none => uuid

/-- The uuid supply after the above: `randomUUID()` is consumed only when
the matched row had no metadata. -/
def uuidStepOr (m? : Option SyncMetadata) (uuid : Nat) : Nat :=
  match m? with
  | some _ => uuid
  | none => uuid + 1

/-- One iteration of the `bulkUpsertReceipts` / `bulkUpsertItems` loop
(offlineStorage.ts lines 294-360): the incoming record's fields overwrite
the row matching its cloud id (keeping that row's primary key and, when
present, its opaque `syncMeta.id`), or a fresh row is inserted when no
row matches. Returns the table plus the advanced primary-key and uuid
supplies. The stray top-level `cloudId` property the spread also stores
is not part of the schema and is not modelled. -/
def upsertOne {α : Type} (table : List (LocalRec α)) (u : UpsertRec α)
    (nextId uuid now : Nat) : List (LocalRec α) × Nat × Nat :=
  match findByCloud table u.cloudId with
  | some existing =>
      (replaceByCloud u.cloudId
        (fun r => { r with
            fields := u.fields,
            syncMeta := some ⟨metaIdOr existing.syncMeta uuid, some now, false,
              some u.cloudId⟩ })
        table,
       nextId, uuidStepOr existing.syncMeta uuid)
  | none =>
      (table ++ [⟨nextId, u.fields, some ⟨uuid, some now, false, some u.cloudId⟩⟩],
       nextId + 1, uuid + 1)

/-- The `bulkUpsertReceipts` / `bulkUpsertItems` transaction body: fold
`upsertOne` over the incoming remote records in order. -/
def bulkUpsertRows {α : Type} :
    List (LocalRec α) → List (UpsertRec α) → Nat → Nat → Nat →
    List (LocalRec α) × Nat × Nat
  | table, [], nextId, uuid, _ => (table, nextId, uuid)
  | table, u :: us, nextId, uuid, now =>
      let r := upsertOne table u nextId uuid now
      bulkUpsertRows r.1 us r.2.1 r.2.2 now

/-- `offlineStorage.bulkUpsertReceipts`. -/
def bulkUpsertReceipts (db : DB) (us : List (UpsertRec ReceiptFields)) (now : Nat) : DB :=
  let r := bulkUpsertRows db.receipts us db.nextReceiptId db.nextUuid now
  { db with receipts := r.1, nextReceiptId := r.2.1, nextUuid := r.2.2 }

/-- `offlineStorage.bulkUpsertItems`. -/
def bulkUpsertItems (db : DB) (us : List (UpsertRec ItemFields)) (now : Nat) : DB :=
  let r := bulkUpsertRows db.items us db.nextItemId db.nextUuid now
  { db with items := r.1, nextItemId := r.2.1, nextUuid := r.2.2 }

/-- `deleteReceiptsByCloudIds` / `deleteItemsByCloudIds`: delete every
row whose indexed `syncMeta.cloudId` is one of the given ids; a no-op on
empty input, and rows with no cloud id are not in the index, hence
untouched. -/
def deleteRowsByCloudIds {α : Type} (table : List (LocalRec α))
    (cloudIds : List String) : List (LocalRec α) :=
  if cloudIds.isEmpty then table
  else
    table.filter (fun r =>
      match cloudIdOf r with
      | some c => !(cloudIds.contains c)
      | none => true)

/-- The in-memory engine status record (`SyncStatus`). -/
structure SyncStatus where
  isOnline : Bool
  isSyncing : Bool
  lastSyncAt : Option Nat
  pendingChanges : Nat
  error : Option String
deriving Repr, DecidableEq, Inhabited

/-- The four event kinds of the Sync Engine's publish/subscribe surface.
Every `emit(e)` also fans out to the status-change subscribers; event logs
below record one entry per `emit` call. -/
inductive SyncEventType
  | syncStart
  | syncComplete
  | syncError
  | statusChange
deriving Repr, DecidableEq

/-- The Sync Engine's guarded internal state beyond the status record. -/
structure EngineState where
  status : SyncStatus
  lastSyncAttempt : Nat
  consecutiveFailures : Nat
deriving Repr, DecidableEq

def MAX_RETRY_COUNT : Nat := 3
def MIN_SYNC_INTERVAL_MS : Nat := 5000
def MAX_CONSECUTIVE_FAILURES : Nat := 5

def pausedError : String :=
  "Sync paused due to repeated failures. Please try again later."

def offlineError : String := "Cannot sync while offline"

def connectionFailedError : String :=
  "Connection failed. Is the backend server running?"

/-- Uniform result of a single-record remote call after the Remote Client
has normalized transport and application errors: a success flag and, when
a record came back, its server id (`result.data._id`). -/
structure ApiResp where
  success : Bool
  dataId : Option String
deriving Repr, DecidableEq

/-- A receipt in the pulled remote snapshot (`_id` plus fields). -/
structure CloudReceipt where
  cloudId : String
  fields : ReceiptFields
deriving Repr, DecidableEq

/-- An item in the pulled remote snapshot. -/
structure CloudItem where
  cloudId : String
  fields : ItemFields
deriving Repr, DecidableEq

/-- The settings object in the pulled remote snapshot (`_id` and `userId`
are stripped before it reaches the local store; only `budget` remains). -/
structure CloudSettings where
  cloudId : String
  budget : Int
deriving Repr, DecidableEq

/-- The `GET /sync/all` snapshot: `{ receipts, items, settings }`. -/
structure CloudSnapshot where
  receipts : List CloudReceipt
  items : List CloudItem
  settings : Option CloudSettings
deriving Repr, DecidableEq

/-- Result of `apiClient.fetchAll()`. -/
structure FetchAllResp where
  success : Bool
  data : Option CloudSnapshot
  error : Option String
deriving Repr, DecidableEq

/-- The Remote Client (`apiClient`) as a response oracle: each endpoint
maps the request to the uniform result shape. A deterministic oracle
suffices for the properties below; witnesses instantiate concrete ones. -/
structure ApiClient where
  createReceipt : Payload → ApiResp
  updateReceipt : String → Payload → ApiResp
  deleteReceipt : String → ApiResp
  createItem : Payload → ApiResp
  updateItem : String → Payload → ApiResp
  deleteItem : String → ApiResp
  updateSettings : Payload → ApiResp
  fetchAll : FetchAllResp

/-- One remote request, as recorded in a call trace. -/
inductive ApiCall
  | createReceipt (data : Payload)
  | updateReceipt (cloudId : String) (data : Payload)
  | deleteReceipt (cloudId : String)
  | createItem (data : Payload)
  | updateItem (cloudId : String) (data : Payload)
  | deleteItem (cloudId : String)
  | updateSettings (data : Payload)
  | fetchAll
deriving Repr, DecidableEq

/-- `parseInt(entityId)`: queue entity ids are produced by `String(id)`,
so this is the decimal reading; a non-numeric string (NaN) matches no
row. -/
def parseLocalId (s : String) : Option Nat :=
  s.toNat?

/-- `SyncService.syncReceipt`: replay one receipt queue entry. Returns
whether the entry succeeded, the updated database, and the remote calls
issued. -/
def syncReceipt (api : ApiClient) (db : DB) (action : SyncAction)
    (entityId : String) (data : Payload) (now : Nat) :
    Bool × DB × List ApiCall :=
  match action with
  | .create =>
      match api.createReceipt data with
      | ⟨true, some cid⟩ =>
          let db' := match parseLocalId entityId with
            | some lid => markReceiptSynced db lid cid now
            | none => db
          (true, db', [.createReceipt data])
      | _ => (false, db, [.createReceipt data])
  | .update =>
      match db.receipts.find? (fun r => some r.id == parseLocalId entityId) with
      | some lr =>
          match truthyOf (cloudIdOf lr) with
          | some cid => ((api.updateReceipt cid data).success, db, [.updateReceipt cid data])
          | none => (false, db, [])
      | none => (false, db, [])
  | .delete =>
      match truthyOf (payloadCloudId data) with
      | none => (true, db, [])
      | some cid => ((api.deleteReceipt cid).success, db, [.deleteReceipt cid])

/-- `SyncService.syncItem`: replay one item queue entry. -/
def syncItem (api : ApiClient) (db : DB) (action : SyncAction)
    (entityId : String) (data : Payload) (now : Nat) :
    Bool × DB × List ApiCall :=
  match action with
  | .create =>
      match api.createItem data with
      | ⟨true, some cid⟩ =>
          let db' := match parseLocalId entityId with
            | some lid => markItemSynced db lid cid now
            | none => db
          (true, db', [.createItem data])
      | _ => (false, db, [.createItem data])
  | .update =>
      match db.items.find? (fun r => some r.id == parseLocalId entityId) with
      | some lr =>
          match truthyOf (cloudIdOf lr) with
          | some cid => ((api.updateItem cid data).success, db, [.updateItem cid data])
          | none => (false, db, [])
      | none => (false, db, [])
  | .delete =>
      match truthyOf (payloadCloudId data) with
      | none => (true, db, [])
      | some cid => ((api.deleteItem cid).success, db, [.deleteItem cid])

/-- `SyncService.syncSettings`: settings always go through the idempotent
upsert endpoint. -/
def syncSettings (api : ApiClient) (db : DB) (data : Payload) (now : Nat) :
    Bool × DB × List ApiCall :=
  match api.updateSettings data with
  | ⟨true, some cid⟩ => (true, markSettingsSynced db cid now, [.updateSettings data])
  | _ => (false, db, [.updateSettings data])

/-- `SyncService.processSyncItem`: dispatch one queue entry by entity
type and action. A settings `delete` is a no-op reported as success. Its
internal `try`/`catch` turns thrown errors into failure; the modelled
remote client always returns a normalized result, so no throw arises. -/
def processSyncItem (api : ApiClient) (db : DB) (q : SyncQueueItem) (now : Nat) :
    Bool × DB × List ApiCall :=
  match q.entityType with
  | .receipt => syncReceipt api db q.action q.entityId q.data now
  | .item => syncItem api db q.action q.entityId q.data now
  | .settings =>
      if q.action = SyncAction.delete then (true, db, [])
      else syncSettings api db q.data now

/-- Accumulated outcome of the `sync()` replay loop. -/
structure PassResult where
  db : DB
  successCount : Nat
  failureCount : Nat
  calls : List ApiCall
deriving Repr

/-- The `sync()` replay loop over the queue snapshot (part_001 lines
905-922): each entry is processed exactly once; a successful entry is
removed, a failed entry whose snapshot `retryCount` has reached the
ceiling is removed (poison item), and any other failed entry has its
stored retry count bumped and stays queued. -/
def processPass (api : ApiClient) (now : Nat) :
    DB → List SyncQueueItem → PassResult
  | db, [] => ⟨db, 0, 0, []⟩
  | db, q :: rest =>
      let step := processSyncItem api db q now
      let next :=
        if step.1 then (removeSyncItem step.2.1 q.id, 1, 0)
        else if q.retryCount ≥ MAX_RETRY_COUNT then (removeSyncItem step.2.1 q.id, 0, 1)
        else (incrementRetryCount step.2.1 q.id, 0, 1)
      let r := processPass api now next.1 rest
      ⟨r.db, next.2.1 + r.successCount, next.2.2 + r.failureCount, step.2.2 ++ r.calls⟩

/-- Everything observable about one `sync()` invocation. -/
structure SyncRun where
  engine : EngineState
  db : DB
  returned : Bool
  calls : List ApiCall
  events : List SyncEventType
deriving Repr

/-- `SyncService.sync()` (part_001 lines 858-950), the canonical
revision: the four entry guards, one replay pass over the queue snapshot,
pending-count refresh, failure-counter bookkeeping, and the exception
catch. `storageFault` injects a local-store exception thrown at the
`getPendingSyncItems` await inside the `try` block (the remote client
never throws; its errors are normalized results). -/
def sync (api : ApiClient) (storageFault : Option String)
    (e : EngineState) (db : DB) (now : Nat) : SyncRun :=
  if e.status.isSyncing then ⟨e, db, false, [], []⟩
  else if !e.status.isOnline then ⟨e, db, false, [], []⟩
  else if now - e.lastSyncAttempt < MIN_SYNC_INTERVAL_MS then ⟨e, db, false, [], []⟩
  else if e.consecutiveFailures ≥ MAX_CONSECUTIVE_FAILURES then
    ⟨{ e with status := { e.status with error := some pausedError } }, db, false, [],
     [.statusChange]⟩
  else
    let e1 : EngineState :=
      { e with lastSyncAttempt := now,
               status := { e.status with isSyncing := true, error := none } }
    match storageFault with
    | some msg =>
        ⟨{ e1 with
             status := { e1.status with error := some msg, isSyncing := false },
             consecutiveFailures := e1.consecutiveFailures + 1 },
         db, false, [], [.syncStart, .syncError]⟩
    | none =>
        let pending := getPendingSyncItems db
        if pending.isEmpty then
          ⟨{ e1 with
               status := { e1.status with lastSyncAt := some now, isSyncing := false },
               consecutiveFailures := 0 },
           db, true, [], [.syncStart, .syncComplete]⟩
        else
          let r := processPass api now db pending
          ⟨{ e1 with
               status := { e1.status with
                 lastSyncAt := some now,
                 isSyncing := false,
                 pendingChanges := r.db.syncQueue.length },
               consecutiveFailures :=
                 if r.failureCount > 0 ∧ r.successCount = 0 then
                   e1.consecutiveFailures + 1
                 else 0 },
           r.db, r.failureCount == 0, r.calls,
           [.syncStart, .statusChange, .syncComplete]⟩

/-- Phase-1 push of receipts lacking a cloud id (`pushLocalChanges`,
part_001 lines 1279-1290): create each remotely, stamping the returned
cloud id on success; each push's failure is swallowed. -/
def pushReceiptsLoop (api : ApiClient) (now : Nat) :
    DB → List LocalReceipt → DB × List ApiCall
  | db, [] => (db, [])
  | db, r :: rs =>
      let data := Payload.receiptData r.fields
      let db1 := match api.createReceipt data with
        | ⟨true, some cid⟩ => markReceiptSynced db r.id cid now
        | _ => db
      let rest := pushReceiptsLoop api now db1 rs
      (rest.1, ApiCall.createReceipt data :: rest.2)

/-- Phase-1 push of items lacking a cloud id, one at a time (part_001
lines 1296-1321). -/
def pushItemsLoop (api : ApiClient) (now : Nat) :
    DB → List LocalItem → DB × List ApiCall
  | db, [] => (db, [])
  | db, i :: is2 =>
      let data := Payload.itemData i.fields
      let db1 := match api.createItem data with
        | ⟨true, some cid⟩ => markItemSynced db i.id cid now
        | _ => db
      let rest := pushItemsLoop api now db1 is2
      (rest.1, ApiCall.createItem data :: rest.2)

/-- The best-effort queue drain closing phase 1 (part_001 lines
1336-1342): process each entry and remove it unconditionally, success or
not. -/
def drainQueue (api : ApiClient) (now : Nat) :
    DB → List SyncQueueItem → DB × List ApiCall
  | db, [] => (db, [])
  | db, q :: rest =>
      let step := processSyncItem api db q now
      let db1 := removeSyncItem step.2.1 q.id
      let r := drainQueue api now db1 rest
      (r.1, step.2.2 ++ r.2)

/-- `SyncService.pushLocalChanges` (part_001 lines 1272-1343): snapshot
the unsynced rows and the settings row up front, push them, then drain
the queue best-effort. -/
def pushLocalChanges (api : ApiClient) (db : DB) (now : Nat) : DB × List ApiCall :=
  let unsyncedReceipts := getUnsyncedRows db.receipts
  let unsyncedItems := getUnsyncedRows db.items
  let settings := db.settings
  let p1 := pushReceiptsLoop api now db unsyncedReceipts
  let p2 := pushItemsLoop api now p1.1 unsyncedItems
  let p3 :=
    match settings with
    | some s =>
        if truthyStr (s.syncMeta.bind (·.cloudId)) then (p2.1, ([] : List ApiCall))
        else
          let data := Payload.settingsData ⟨some s.budget⟩
          match api.updateSettings data with
          | ⟨true, some cid⟩ => (markSettingsSynced p2.1 cid now, [ApiCall.updateSettings data])
          | _ => (p2.1, [ApiCall.updateSettings data])
    | none => (p2.1, [])
  let pending := getPendingSyncItems p3.1
  let p4 := drainQueue api now p3.1 pending
  (p4.1, p1.2 ++ p2.2 ++ p3.2 ++ p4.2)

/-- The deletion-propagation step of phase 3, identical for receipts
and items (part_001 lines 1215-1242): collect the cloud ids of synced
local rows that vanished from the snapshot, and, when there are any,
delete those rows by cloud id. -/
def staleIds {α : Type} (table : List (LocalRec α)) (cloudIds : List String) :
    List String :=
  ((getSyncedRows table).filter (fun r =>
      truthyStr (cloudIdOf r) && !(cloudIds.contains ((cloudIdOf r).getD ""))))
    |>.map (fun r => (cloudIdOf r).getD "")

def pruneStale {α : Type} (table : List (LocalRec α)) (cloudIds : List String) :
    List (LocalRec α) :=
  if (staleIds table cloudIds).length > 0 then
    deleteRowsByCloudIds table (staleIds table cloudIds)
  else table

/-- The merge steps 3.1-3.3 of `performFullSync()` (part_001 lines
1180-1213): bulk upsert the pulled receipts and items keyed by cloud id
(server wins), then route the pulled settings through the gateway's
`updateSettings` (which enqueues) and stamp them synced. -/
def mergeUpserted (snap : CloudSnapshot) (db : DB) (now : Nat) : DB :=
  let db1 := bulkUpsertReceipts db (snap.receipts.map (fun r => ⟨r.fields, r.cloudId⟩)) now
  let db2 := bulkUpsertItems db1 (snap.items.map (fun i => ⟨i.fields, i.cloudId⟩)) now
  match snap.settings with
  | some cs => markSettingsSynced (updateSettings db2 ⟨some cs.budget⟩ now) cs.cloudId now
  | none => db2

/-- Phase 3 of `performFullSync()` in full (part_001 lines 1180-1242):
the merge steps followed by deletion propagation over receipts and then
items. -/
def mergePhase (snap : CloudSnapshot) (db : DB) (now : Nat) : DB :=
  let db3 := mergeUpserted snap db now
  let db4 := { db3 with
    receipts := pruneStale db3.receipts (snap.receipts.map (fun r : CloudReceipt => r.cloudId)) }
  { db4 with
    items := pruneStale db4.items (snap.items.map (fun i : CloudItem => i.cloudId)) }

/-- Everything observable about one `performFullSync()` invocation. -/
structure FullSyncRun where
  engine : EngineState
  db : DB
  returned : Bool
  calls : List ApiCall
  events : List SyncEventType
deriving Repr

/-- Substring test backing the `errorMessage.includes(...)` checks. -/
def containsSub (s pat : String) : Bool :=
  s.toList.tails.any (fun t => pat.toList.isPrefixOf t)

/-- `SyncService.performFullSync()` (part_001 lines 1158-1269): offline
guard, phase-1 push, phase-2 pull, phase-3 merge and prune, then status
bookkeeping; a pull failure is thrown and caught, network-class messages
being rewritten to the user-facing connection-failed phrasing. -/
def performFullSync (api : ApiClient) (e : EngineState) (db : DB) (now : Nat) :
    FullSyncRun :=
  if !e.status.isOnline then
    ⟨{ e with status := { e.status with error := some offlineError } }, db, false, [],
     [.statusChange]⟩
  else
    let e1 : EngineState :=
      { e with consecutiveFailures := 0,
               status := { e.status with isSyncing := true, error := none } }
    let push := pushLocalChanges api db now
    match api.fetchAll with
    | ⟨true, some snap, _⟩ =>
        let db2 := mergePhase snap push.1 now
        ⟨{ e1 with
             status := { e1.status with
               lastSyncAt := some now,
               isSyncing := false,
               pendingChanges := db2.syncQueue.length } },
         db2, true, push.2 ++ [.fetchAll], [.syncStart, .statusChange, .syncComplete]⟩
    | resp =>
        let raw := match resp.error with
          | some s => if s == "" then "Failed to fetch cloud data" else s
          | none => "Failed to fetch cloud data"
        let msg :=
          if containsSub raw "Failed to fetch" || containsSub raw "NetworkError" then
            connectionFailedError
          else raw
        ⟨{ e1 with status := { e1.status with error := some msg, isSyncing := false } },
         push.1, false, push.2 ++ [.fetchAll], [.syncStart, .syncError]⟩

/-- A tiny JS heap of `SyncStatus` objects: references are indices into
the store. `statusRef` is the engine's internal `this.status` object. -/
structure StatusHeap where
  store : List SyncStatus
  statusRef : Nat
deriving Repr, DecidableEq

/-- Dereference a status object. -/
def StatusHeap.read (h : StatusHeap) (r : Nat) : SyncStatus :=
  h.store.getD r default

/-- The engine's internal status record. -/
def StatusHeap.internal (h : StatusHeap) : SyncStatus :=
  h.read h.statusRef

/-- `emit` hands every subscriber `this.status` itself
(`cb(this.status)`, part_001 lines 786-792): the callback argument is the
internal reference. -/
def emitArg (h : StatusHeap) : Nat :=
  h.statusRef

/-- `getStatus()` returns `{ ...this.status }` (part_001 lines 853-855):
a freshly allocated object holding a copy of the current field values. -/
def getStatusAlloc (h : StatusHeap) : Nat × StatusHeap :=
  (h.store.length, { h with store := h.store ++ [h.internal] })

/-- External code mutating the status object it was handed, through the
reference it received. -/
def writeStatus (h : StatusHeap) (r : Nat) (v : SyncStatus) : StatusHeap :=
  { h with store := h.store.set r v }

/-! Concrete fixtures used by evaluation theorems and witnesses. -/

/-- A remote store that rejects every request (non-2xx on each call). -/
def failApi : ApiClient where
  createReceipt _ := ⟨false, none⟩
  updateReceipt _ _ := ⟨false, none⟩
  deleteReceipt _ := ⟨false, none⟩
  createItem _ := ⟨false, none⟩
  updateItem _ _ := ⟨false, none⟩
  deleteItem _ := ⟨false, none⟩
  updateSettings _ := ⟨false, none⟩
  fetchAll := ⟨false, none, some "Request failed with status 500"⟩

/-- A remote store that accepts every request, answering with a fixed
server id. -/
def okApi : ApiClient where
  createReceipt _ := ⟨true, some "srv1"⟩
  updateReceipt _ _ := ⟨true, some "srv1"⟩
  deleteReceipt _ := ⟨true, some "srv1"⟩
  createItem _ := ⟨true, some "srv2"⟩
  updateItem _ _ := ⟨true, some "srv2"⟩
  deleteItem _ := ⟨true, some "srv2"⟩
  updateSettings _ := ⟨true, some "srv3"⟩
  fetchAll := ⟨true, some ⟨[], [], some ⟨"srv3", 750⟩⟩, none⟩

def receiptFieldsW : ReceiptFields := ⟨1000, 5, none, none, true⟩

def itemFieldsW : ItemFields := ⟨7, "milk", 2, 3, 1000⟩

/-- A database holding a single queued receipt-create entry. -/
def dbC1 : DB where
  receipts := []
  items := []
  settings := none
  syncQueue := [⟨1, .receipt, "7", .create, .receiptData receiptFieldsW, 0, 0⟩]
  nextReceiptId := 1
  nextItemId := 1
  nextQueueId := 2
  nextUuid := 0
  dataChangedEvents := 0

/-- A fresh online, idle engine whose throttling window has passed by
time 5000. -/
def engineOnline : EngineState where
  status := ⟨true, false, none, 1, none⟩
  lastSyncAttempt := 0
  consecutiveFailures := 0

/-- An engine with a sync already in flight. -/
def engineSyncing : EngineState where
  status := ⟨true, true, none, 1, none⟩
  lastSyncAttempt := 0
  consecutiveFailures := 0

def statusW : SyncStatus := ⟨true, false, none, 0, none⟩

/-- A heap holding just the engine's internal status object. -/
def heapW : StatusHeap := ⟨[statusW], 0⟩

/-- A status value a misbehaving subscriber writes into the object it
received. -/
def corruptedStatus : SyncStatus := { statusW with error := some "corrupted" }

/-- A synced receipt row with local id 7 and cloud id "c7". -/
def receiptRowW : LocalReceipt :=
  ⟨7, receiptFieldsW, some ⟨11, some 10, false, some "c7"⟩⟩

/-- A database with receipt 7, one dependent item and one unrelated
item. -/
def dbC7 : DB where
  receipts := [receiptRowW]
  items := [⟨1, itemFieldsW, none⟩, ⟨2, { itemFieldsW with receiptId := 9 }, none⟩]
  settings := none
  syncQueue := []
  nextReceiptId := 8
  nextItemId := 3
  nextQueueId := 1
  nextUuid := 20
  dataChangedEvents := 0

/-- A receipt-delete queue entry whose payload carries no cloud id. -/
def queueDeleteNoCloud : SyncQueueItem :=
  ⟨4, .receipt, "7", .delete, .deleteData 7 none, 0, 0⟩

/-- A pulled snapshot holding one receipt ("keep"), no items, and no
settings. -/
def snapW : CloudSnapshot := ⟨[⟨"keep", receiptFieldsW⟩], [], none⟩

/-- The snapshot `okApi.fetchAll` answers with. -/
def snapOk : CloudSnapshot := ⟨[], [], some ⟨"srv3", 750⟩⟩

/-- A database holding a receipt synced under the vanished cloud id
"gone" and a receipt never synced. -/
def dbW : DB where
  receipts := [⟨1, receiptFieldsW, some ⟨5, some 1, false, some "gone"⟩⟩,
               ⟨2, receiptFieldsW, none⟩]
  items := []
  settings := none
  syncQueue := []
  nextReceiptId := 3
  nextItemId := 1
  nextQueueId := 1
  nextUuid := 30
  dataChangedEvents := 0

/-! Theorems. -/

/-- Claim C1 (the code contradicts it): with a remote store failing every
call, a single queued create entry survives three consecutive failing
`sync()` cycles with `retryCount` still `0`. `incrementRetryCount` stores
`retryCount ?? (0 + 1)` — JS `+` binds tighter than `??` — so an existing
entry's count is rewritten to itself, the ceiling `MAX_RETRY_COUNT` is
never reached, and the entry is never removed from
`getPendingSyncItems()`, contrary to the documented retry ceiling and the
engine's own removal log message. -/
theorem retryCount_stuck_across_three_failing_cycles :
    (let run1 := sync failApi none engineOnline dbC1 5000
     let run2 := sync failApi none run1.engine run1.db 10000
     let run3 := sync failApi none run2.engine run2.db 15000
     (getPendingSyncItems run3.db).map (fun q => (q.id, q.retryCount)) = [(1, 0)] ∧
     run1.returned = false ∧ run2.returned = false ∧ run3.returned = false ∧
     run3.engine.consecutiveFailures = 3) := by
  decide

/-- Claim C4: each of the four `sync()` entry guards returns `false`
silently — no remote call, no database (hence queue) mutation — and only
the consecutive-failure guard, when it is the one that fires (the three
earlier guards all passing), additionally sets the user-visible paused
error on the status record. -/
theorem sync_preconditions_silent_noop (api : ApiClient) (fault : Option String)
    (e : EngineState) (db : DB) (now : Nat)
    (h : e.status.isSyncing = true ∨ e.status.isOnline = false ∨
      now - e.lastSyncAttempt < MIN_SYNC_INTERVAL_MS ∨
      MAX_CONSECUTIVE_FAILURES ≤ e.consecutiveFailures) :
    (sync api fault e db now).returned = false ∧
    (sync api fault e db now).calls = [] ∧
    (sync api fault e db now).db = db ∧
    (sync api fault e db now).engine =
      (if e.status.isSyncing = false ∧ e.status.isOnline = true ∧
          MIN_SYNC_INTERVAL_MS ≤ now - e.lastSyncAttempt ∧
          MAX_CONSECUTIVE_FAILURES ≤ e.consecutiveFailures then
        { e with status := { e.status with error := some pausedError } }
       else e) := by
  unfold sync
  by_cases h1 : e.status.isSyncing
  · simp [h1]
  · by_cases h2 : e.status.isOnline
    · by_cases h3 : now - e.lastSyncAttempt < MIN_SYNC_INTERVAL_MS
      · simp [h1, h2, h3, Nat.not_le.mpr h3]
      · have h4 : MAX_CONSECUTIVE_FAILURES ≤ e.consecutiveFailures := by
          rcases h with h | h | h | h
          · exact absurd h h1
          · rw [h2] at h; exact absurd h (by decide)
          · exact absurd h h3
          · exact h
        simp [h1, h2, h3, h4, Nat.le_of_not_lt h3]
    · simp [h1, h2]

/-- Witness for C4 at a concrete input: an engine already syncing makes
`sync()` a silent no-op. -/
theorem sync_preconditions_silent_noop_witness :
    (engineSyncing.status.isSyncing = true ∨ engineSyncing.status.isOnline = false ∨
      (99999 : Nat) - engineSyncing.lastSyncAttempt < MIN_SYNC_INTERVAL_MS ∨
      MAX_CONSECUTIVE_FAILURES ≤ engineSyncing.consecutiveFailures) ∧
    ((sync failApi none engineSyncing dbC1 99999).returned = false ∧
     (sync failApi none engineSyncing dbC1 99999).calls = [] ∧
     (sync failApi none engineSyncing dbC1 99999).db = dbC1 ∧
     (sync failApi none engineSyncing dbC1 99999).engine =
       (if engineSyncing.status.isSyncing = false ∧ engineSyncing.status.isOnline = true ∧
           MIN_SYNC_INTERVAL_MS ≤ (99999 : Nat) - engineSyncing.lastSyncAttempt ∧
           MAX_CONSECUTIVE_FAILURES ≤ engineSyncing.consecutiveFailures then
         { engineSyncing with status :=
            { engineSyncing.status with error := some pausedError } }
        else engineSyncing)) :=
  ⟨Or.inl rfl,
   sync_preconditions_silent_noop failApi none engineSyncing dbC1 99999 (Or.inl rfl)⟩

/-- Claim C7: deleting an existing receipt cascades — its items are
removed with no queue entries of their own, the receipt row is removed,
and exactly one `delete` queue entry is appended, whose payload carries
the receipt's previously known cloud id (absent when it had none). -/
theorem deleteReceipt_cascades (db : DB) (localId now : Nat) (receipt : LocalReceipt)
    (h : db.receipts.find? (fun r => r.id == localId) = some receipt) :
    (deleteReceipt db localId now).items =
      db.items.filter (fun i => i.fields.receiptId != localId) ∧
    (deleteReceipt db localId now).receipts =
      db.receipts.filter (fun r => r.id != localId) ∧
    (deleteReceipt db localId now).syncQueue = db.syncQueue ++
      [⟨db.nextQueueId, .receipt, toString localId, .delete,
        .deleteData localId (cloudIdOf receipt), now, 0⟩] ∧
    (deleteReceipt db localId now).settings = db.settings := by
  unfold deleteReceipt
  rw [h]
  simp [queueSync]

/-- Witness for C7: deleting receipt 7 (cloud id "c7") from a database
with one dependent and one unrelated item. -/
theorem deleteReceipt_cascades_witness :
    (dbC7.receipts.find? (fun r => r.id == 7) = some receiptRowW) ∧
    ((deleteReceipt dbC7 7 50).items =
       dbC7.items.filter (fun i => i.fields.receiptId != 7) ∧
     (deleteReceipt dbC7 7 50).receipts =
       dbC7.receipts.filter (fun r => r.id != 7) ∧
     (deleteReceipt dbC7 7 50).syncQueue = dbC7.syncQueue ++
       [⟨dbC7.nextQueueId, .receipt, toString 7, .delete,
         .deleteData 7 (cloudIdOf receiptRowW), 50, 0⟩] ∧
     (deleteReceipt dbC7 7 50).settings = dbC7.settings) :=
  ⟨by decide, deleteReceipt_cascades dbC7 7 50 receiptRowW (by decide)⟩

/-- Claim C8: replaying a `delete` queue entry for a receipt or item
whose payload carries no cloud id issues no remote call and reports
success; a settings `delete` entry is always a successful no-op. -/
theorem delete_noop_without_cloudId (api : ApiClient) (db : DB) (q : SyncQueueItem)
    (now : Nat)
    (h : (q.action = SyncAction.delete ∧ payloadCloudId q.data = none ∧
           (q.entityType = EntityType.receipt ∨ q.entityType = EntityType.item)) ∨
         (q.entityType = EntityType.settings ∧ q.action = SyncAction.delete)) :
    processSyncItem api db q now = (true, db, []) := by
  rcases h with ⟨ha, hp, ht | ht⟩ | ⟨ht, ha⟩
  · simp [processSyncItem, ht, ha, syncReceipt, hp, truthyOf]
  · simp [processSyncItem, ht, ha, syncItem, hp, truthyOf]
  · simp [processSyncItem, ht, ha]

/-- Witness for C8: a receipt-delete entry whose payload has no cloud id
is replayed as a no-op success against the always-failing remote. -/
theorem delete_noop_without_cloudId_witness :
    ((queueDeleteNoCloud.action = SyncAction.delete ∧
       payloadCloudId queueDeleteNoCloud.data = none ∧
       (queueDeleteNoCloud.entityType = EntityType.receipt ∨
        queueDeleteNoCloud.entityType = EntityType.item)) ∨
      (queueDeleteNoCloud.entityType = EntityType.settings ∧
       queueDeleteNoCloud.action = SyncAction.delete)) ∧
    processSyncItem failApi dbC1 queueDeleteNoCloud 5 = (true, dbC1, []) :=
  ⟨Or.inl ⟨rfl, rfl, Or.inl rfl⟩,
   delete_noop_without_cloudId failApi dbC1 queueDeleteNoCloud 5
     (Or.inl ⟨rfl, rfl, Or.inl rfl⟩)⟩

/-- Claim C6 is false on the code (counterexample): `emit` invokes each
subscriber as `cb(this.status)`, passing the engine's internal status
object itself, so a subscriber mutating the object it received changes
the engine's internal state. Here a concrete subscriber write through the
reference delivered by `emit` corrupts the engine's status record. -/
theorem emit_hands_subscribers_internal_alias :
    (writeStatus heapW (emitArg heapW) corruptedStatus).internal ≠ heapW.internal := by
  decide

/-- Claim C6 amended: `getStatus()` does return a defensive copy — a
mutation through the object it returns never changes the engine's
internal status — but subscriber callbacks receive the internal status
record itself (an alias), so a mutation through the object handed to a
subscriber becomes the engine's internal state. -/
theorem getStatus_copies_but_emit_aliases (h : StatusHeap) (v : SyncStatus)
    (hr : h.statusRef < h.store.length) :
    (writeStatus (getStatusAlloc h).2 (getStatusAlloc h).1 v).internal = h.internal ∧
    (writeStatus h (emitArg h) v).internal = v := by
  constructor
  · show ((h.store ++ [h.internal]).set h.store.length v).getD h.statusRef default =
      h.store.getD h.statusRef default
    rw [List.getD_eq_getElem?_getD, List.getD_eq_getElem?_getD]
    rw [List.getElem?_set_ne (by omega)]
    simp [List.getElem?_append, hr]
  · show (h.store.set h.statusRef v).getD h.statusRef default = v
    simp [List.getD_eq_getElem?_getD, List.getElem?_set_self, hr]

/-- Witness for the amended C6 at a concrete heap. -/
theorem getStatus_copies_but_emit_aliases_witness :
    heapW.statusRef < heapW.store.length ∧
    ((writeStatus (getStatusAlloc heapW).2 (getStatusAlloc heapW).1 corruptedStatus).internal
        = heapW.internal ∧
     (writeStatus heapW (emitArg heapW) corruptedStatus).internal = corruptedStatus) :=
  ⟨by decide, getStatus_copies_but_emit_aliases heapW corruptedStatus (by decide)⟩

/-- Each queue entry issues at most one remote call when replayed. -/
theorem processSyncItem_calls_len (api : ApiClient) (db : DB) (q : SyncQueueItem)
    (now : Nat) : (processSyncItem api db q now).2.2.length ≤ 1 := by
  rcases q with ⟨qid, et, eid, a, d, ca, rc⟩
  cases et <;> cases a <;>
    simp only [processSyncItem, syncReceipt, syncItem, syncSettings] <;>
    (repeat' split) <;> simp

/-- One replay pass issues at most one remote call per snapshot entry. -/
theorem processPass_calls_len (api : ApiClient) (now : Nat) (qs : List SyncQueueItem) :
    ∀ db : DB, (processPass api now db qs).calls.length ≤ qs.length := by
  induction qs with
  | nil => intro db; simp [processPass]
  | cons q rest ih =>
      intro db
      simp only [processPass, List.length_append, List.length_cons]
      exact le_trans
        (Nat.add_le_add (processSyncItem_calls_len api db q now) (ih _)) (by omega)

/-- Claim C5: `sync()` never re-invokes itself on completion. Every
invocation's remote-call trace is either empty (a guard or the exception
path fired, or the snapshot was empty) or exactly the trace of a single
replay pass over the queue snapshot taken at entry; in particular at most
one remote call is issued per snapshot entry, no matter how many entries
fail or remain queued — a failing queue is only retried by a later
invocation. -/
theorem sync_is_single_pass (api : ApiClient) (fault : Option String)
    (e : EngineState) (db : DB) (now : Nat) :
    ((sync api fault e db now).calls = [] ∨
     (sync api fault e db now).calls =
       (processPass api now db (getPendingSyncItems db)).calls) ∧
    (sync api fault e db now).calls.length ≤ (getPendingSyncItems db).length := by
  unfold sync
  by_cases h1 : e.status.isSyncing
  · simp [h1]
  · by_cases h2 : e.status.isOnline
    · by_cases h3 : now - e.lastSyncAttempt < MIN_SYNC_INTERVAL_MS
      · simp [h1, h2, h3]
      · by_cases h4 : MAX_CONSECUTIVE_FAILURES ≤ e.consecutiveFailures
        · simp [h1, h2, h3, h4]
        · cases fault with
          | some msg => simp [h1, h2, h3, h4]
          | none =>
              by_cases h5 : (getPendingSyncItems db).isEmpty
              · simp [h1, h2, h3, h4, h5]
              · simp only [h1, h2, h3, h4, h5]
                simp [processPass_calls_len]
    · simp [h1, h2]

/-- Claim C9: when `sync()` runs its replay loop to the end, the
consecutive-failure counter is incremented exactly when the cycle had at
least one failure and no success, and reset to zero otherwise (the
returned flag reporting a fully clean cycle); when an exception escapes
the loop, `sync()` stores its message as the status error, clears the
syncing flag, increments the failure counter, broadcasts a sync-error
event, and returns false. -/
theorem sync_failure_counter_and_catch (api : ApiClient) (fault : Option String)
    (e : EngineState) (db : DB) (now : Nat)
    (hg1 : e.status.isSyncing = false) (hg2 : e.status.isOnline = true)
    (hg3 : MIN_SYNC_INTERVAL_MS ≤ now - e.lastSyncAttempt)
    (hg4 : e.consecutiveFailures < MAX_CONSECUTIVE_FAILURES) :
    (fault = none →
      (sync api fault e db now).engine.consecutiveFailures =
        (if 0 < (processPass api now db (getPendingSyncItems db)).failureCount ∧
            (processPass api now db (getPendingSyncItems db)).successCount = 0 then
           e.consecutiveFailures + 1
         else 0) ∧
      (sync api fault e db now).returned =
        ((processPass api now db (getPendingSyncItems db)).failureCount == 0)) ∧
    (∀ msg, fault = some msg →
      (sync api fault e db now).engine.status.error = some msg ∧
      (sync api fault e db now).engine.status.isSyncing = false ∧
      (sync api fault e db now).engine.consecutiveFailures = e.consecutiveFailures + 1 ∧
      (sync api fault e db now).events = [.syncStart, .syncError] ∧
      (sync api fault e db now).returned = false) := by
  have h3 : ¬ now - e.lastSyncAttempt < MIN_SYNC_INTERVAL_MS := Nat.not_lt.mpr hg3
  have h4 : ¬ MAX_CONSECUTIVE_FAILURES ≤ e.consecutiveFailures := Nat.not_le.mpr hg4
  constructor
  · rintro rfl
    by_cases h5 : (getPendingSyncItems db).isEmpty
    · have h5' : getPendingSyncItems db = [] := List.isEmpty_iff.mp h5
      simp [sync, hg1, hg2, h3, h4, h5, h5', processPass]
    · simp [sync, hg1, hg2, h3, h4, h5]
  · rintro msg rfl
    simp [sync, hg1, hg2, h3, h4]

/-- Witness for C9 at a concrete input: against the always-failing
remote, the all-fail cycle bumps the counter; injecting a storage
exception exercises the catch path. -/
theorem sync_failure_counter_and_catch_witness :
    (engineOnline.status.isSyncing = false ∧ engineOnline.status.isOnline = true ∧
     MIN_SYNC_INTERVAL_MS ≤ (5000 : Nat) - engineOnline.lastSyncAttempt ∧
     engineOnline.consecutiveFailures < MAX_CONSECUTIVE_FAILURES) ∧
    ((none : Option String) = none →
      (sync failApi none engineOnline dbC1 5000).engine.consecutiveFailures =
        (if 0 < (processPass failApi 5000 dbC1 (getPendingSyncItems dbC1)).failureCount ∧
            (processPass failApi 5000 dbC1 (getPendingSyncItems dbC1)).successCount = 0 then
           engineOnline.consecutiveFailures + 1
         else 0) ∧
      (sync failApi none engineOnline dbC1 5000).returned =
        ((processPass failApi 5000 dbC1 (getPendingSyncItems dbC1)).failureCount == 0)) :=
  ⟨⟨rfl, rfl, by decide, by decide⟩,
   (sync_failure_counter_and_catch failApi none engineOnline dbC1 5000
      rfl rfl (by decide) (by decide)).1⟩

/-- Replacing the row found by a cloud-id lookup makes its replacement
the row that lookup finds, provided the replacement still carries that
cloud id. -/
theorem replaceByCloud_findByCloud_self {α : Type} (c : String)
    (f : LocalRec α → LocalRec α) (t : List (LocalRec α)) (e : LocalRec α)
    (he : findByCloud t c = some e) (hf : cloudIdOf (f e) = some c) :
    findByCloud (replaceByCloud c f t) c = some (f e) := by
  induction t with
  | nil => simp [findByCloud] at he
  | cons r rs ih =>
      by_cases h : cloudIdOf r = some c
      · have : e = r := by
          unfold findByCloud at he
          rw [List.find?_cons_of_pos _ (by simp [h])] at he
          exact (Option.some_injective _ he).symm
        subst this
        unfold replaceByCloud
        rw [if_pos (by simp [h])]
        unfold findByCloud
        rw [List.find?_cons_of_pos _ (by simp [hf])]
      · have he' : findByCloud rs c = some e := by
          unfold findByCloud at he ⊢
          rwa [List.find?_cons_of_neg _ (by simp [h])] at he
        unfold replaceByCloud
        rw [if_neg (by simp [h])]
        unfold findByCloud
        rw [List.find?_cons_of_neg _ (by simp [h])]
        exact ih he'

/-- Replacing the row with cloud id `c` leaves lookups for any other
cloud id unchanged, provided the replacement carries cloud id `c`. -/
theorem replaceByCloud_findByCloud_ne {α : Type} (c c' : String)
    (f : LocalRec α → LocalRec α) (t : List (LocalRec α)) (hne : c' ≠ c)
    (hf : ∀ r, cloudIdOf (f r) = some c) :
    findByCloud (replaceByCloud c f t) c' = findByCloud t c' := by
  induction t with
  | nil => rfl
  | cons r rs ih =>
      by_cases h : cloudIdOf r = some c
      · unfold replaceByCloud
        rw [if_pos (by simp [h])]
        unfold findByCloud
        rw [List.find?_cons_of_neg _ (by simp [hf r, hne]; exact fun hx => hne hx.symm),
            List.find?_cons_of_neg _ (by simp [h, hne]; exact fun hx => hne hx.symm)]
      · unfold replaceByCloud
        rw [if_neg (by simp [h])]
        unfold findByCloud at ih ⊢
        by_cases h' : cloudIdOf r = some c'
        · rw [List.find?_cons_of_pos _ (by simp [h']),
              List.find?_cons_of_pos _ (by simp [h'])]
        · rw [List.find?_cons_of_neg _ (by simp [h']),
              List.find?_cons_of_neg _ (by simp [h'])]
          exact ih

/-- A row whose cloud id is not `c` survives the replacement
unchanged. -/
theorem mem_replaceByCloud_of_ne {α : Type} (c : String)
    (f : LocalRec α → LocalRec α) (t : List (LocalRec α)) (r : LocalRec α)
    (hr : r ∈ t) (hc : cloudIdOf r ≠ some c) :
    r ∈ replaceByCloud c f t := by
  induction t with
  | nil => simp at hr
  | cons a rs ih =>
      rcases List.mem_cons.mp hr with rfl | hr'
      · unfold replaceByCloud
        rw [if_neg (by simp [hc])]
        exact List.mem_cons_self _ _
      · unfold replaceByCloud
        by_cases h : cloudIdOf a = some c
        · rw [if_pos (by simp [h])]
          exact List.mem_cons_of_mem _ hr'
        · rw [if_neg (by simp [h])]
          exact List.mem_cons_of_mem _ (ih hr')

/-- Every row of the replaced table is an original row or the
replacement of an original row matching `c`. -/
theorem replaceByCloud_mem_inv {α : Type} (c : String)
    (f : LocalRec α → LocalRec α) (t : List (LocalRec α)) (r' : LocalRec α)
    (hr : r' ∈ replaceByCloud c f t) :
    r' ∈ t ∨ ∃ e, e ∈ t ∧ cloudIdOf e = some c ∧ r' = f e := by
  induction t with
  | nil => simp [replaceByCloud] at hr
  | cons a rs ih =>
      unfold replaceByCloud at hr
      by_cases h : cloudIdOf a = some c
      · rw [if_pos (by simp [h])] at hr
        rcases List.mem_cons.mp hr with rfl | hr'
        · exact Or.inr ⟨a, List.mem_cons_self _ _, h, rfl⟩
        · exact Or.inl (List.mem_cons_of_mem _ hr')
      · rw [if_neg (by simp [h])] at hr
        rcases List.mem_cons.mp hr with rfl | hr'
        · exact Or.inl (List.mem_cons_self _ _)
        · rcases ih hr' with h1 | ⟨e, he, hec, hfe⟩
          · exact Or.inl (List.mem_cons_of_mem _ h1)
          · exact Or.inr ⟨e, List.mem_cons_of_mem _ he, hec, hfe⟩

/-- `replaceByCloud` keeps every row's primary key. -/
theorem replaceByCloud_map_id {α : Type} (c : String)
    (f : LocalRec α → LocalRec α) (hf : ∀ r, (f r).id = r.id)
    (t : List (LocalRec α)) :
    (replaceByCloud c f t).map (·.id) = t.map (·.id) := by
  induction t with
  | nil => rfl
  | cons a rs ih =>
      unfold replaceByCloud
      by_cases h : cloudIdOf a = some c
      · rw [if_pos (by simp [h])]
        simp [hf a]
      · rw [if_neg (by simp [h])]
        simp [ih]

/-- `upsertOne` on a matching table row reduces to the in-place
replacement, leaving the primary-key supply alone. -/
theorem upsertOne_found {α : Type} (t : List (LocalRec α)) (u : UpsertRec α)
    (n uu now : Nat) (e : LocalRec α) (he : findByCloud t u.cloudId = some e) :
    (upsertOne t u n uu now).1 =
      replaceByCloud u.cloudId
        (fun r => { r with
          fields := u.fields,
          syncMeta := some ⟨metaIdOr e.syncMeta uu, some now, false,
            some u.cloudId⟩ }) t ∧
    (upsertOne t u n uu now).2.1 = n := by
  unfold upsertOne
  rw [he]
  exact ⟨rfl, rfl⟩

/-- `upsertOne` with no matching row appends a fresh row keyed by the
next primary key. -/
theorem upsertOne_not_found {α : Type} (t : List (LocalRec α)) (u : UpsertRec α)
    (n uu now : Nat) (he : findByCloud t u.cloudId = none) :
    (upsertOne t u n uu now).1 =
      t ++ [⟨n, u.fields, some ⟨uu, some now, false, some u.cloudId⟩⟩] ∧
    (upsertOne t u n uu now).2.1 = n + 1 := by
  unfold upsertOne
  rw [he]
  exact ⟨rfl, rfl⟩

/-- `upsertOne` leaves cloud-id lookups for other ids unchanged. -/
theorem upsertOne_findByCloud_ne {α : Type} (t : List (LocalRec α)) (u : UpsertRec α)
    (n uu now : Nat) (c' : String) (hne : c' ≠ u.cloudId) :
    findByCloud (upsertOne t u n uu now).1 c' = findByCloud t c' := by
  cases he : findByCloud t u.cloudId with
  | some e =>
      rw [(upsertOne_found t u n uu now e he).1]
      exact replaceByCloud_findByCloud_ne _ _ _ _ hne (fun r => by simp [cloudIdOf])
  | none =>
      rw [(upsertOne_not_found t u n uu now he).1]
      unfold findByCloud
      rw [List.find?_append]
      have : [(⟨n, u.fields, some ⟨uu, some now, false, some u.cloudId⟩⟩ :
          LocalRec α)].find? (fun r => cloudIdOf r == some c') = none := by
        simp [cloudIdOf]
        exact fun hx => hne hx.symm
      rw [this]
      cases h' : List.find? (fun r => cloudIdOf r == some c') t <;> simp [h']

/-- `upsertOne` preserves and advances the primary-key bound. -/
theorem upsertOne_idBound {α : Type} (t : List (LocalRec α)) (u : UpsertRec α)
    (n uu now : Nat) (hb : ∀ r ∈ t, r.id < n) :
    (∀ r ∈ (upsertOne t u n uu now).1, r.id < (upsertOne t u n uu now).2.1) ∧
    n ≤ (upsertOne t u n uu now).2.1 := by
  cases he : findByCloud t u.cloudId with
  | some e =>
      obtain ⟨h1, h2⟩ := upsertOne_found t u n uu now e he
      rw [h1, h2]
      refine ⟨?_, le_refl n⟩
      intro r hr
      rcases replaceByCloud_mem_inv _ _ _ _ hr with h | ⟨e', he', _, rfl⟩
      · exact hb r h
      · simpa using hb e' he'
  | none =>
      obtain ⟨h1, h2⟩ := upsertOne_not_found t u n uu now he
      rw [h1, h2]
      refine ⟨?_, Nat.le_succ n⟩
      intro r hr
      rcases List.mem_append.mp hr with h | h
      · exact Nat.lt_succ_of_lt (hb r h)
      · simp at h
        rw [h]
        exact Nat.lt_succ_self n

/-- Cloud-id lookups for ids outside the upsert batch see through the
whole bulk upsert. -/
theorem bulkUpsertRows_findByCloud_not_mem {α : Type} (now : Nat) (c' : String) :
    ∀ (us : List (UpsertRec α)), c' ∉ us.map (·.cloudId) →
    ∀ (t : List (LocalRec α)) (n uu : Nat),
      findByCloud (bulkUpsertRows t us n uu now).1 c' = findByCloud t c'
  | [], _, t, n, uu => rfl
  | u :: us, hc, t, n, uu => by
      simp only [List.map_cons, List.mem_cons, not_or] at hc
      unfold bulkUpsertRows
      rw [bulkUpsertRows_findByCloud_not_mem now c' us hc.2 _ _ _,
          upsertOne_findByCloud_ne t u n uu now c' hc.1]

/-- Core of claim C2, proved once for both tables: each incoming remote
record ends up, after the bulk upsert, as the row its cloud id finds —
with the remote fields (server wins), the matched row's primary key and
opaque `syncMeta.id` preserved when a match existed, and a row with a
fresh primary key (at least the id supply at entry) otherwise. -/
theorem bulkUpsertRows_upserts_by_cloudId {α : Type} (now : Nat) :
    ∀ (us : List (UpsertRec α)) (t : List (LocalRec α)) (n uu : Nat),
      (us.map (·.cloudId)).Nodup → (∀ r ∈ t, r.id < n) →
      ∀ u ∈ us,
      (∀ e, findByCloud t u.cloudId = some e →
        ∃ e', findByCloud (bulkUpsertRows t us n uu now).1 u.cloudId = some e' ∧
          e'.fields = u.fields ∧ e'.id = e.id ∧
          (∀ m, e.syncMeta = some m →
            ∃ m', e'.syncMeta = some m' ∧ m'.id = m.id) ∧
          (∃ m', e'.syncMeta = some m' ∧ m'.cloudId = some u.cloudId ∧
            m'.pendingSync = false ∧ m'.lastSyncedAt = some now)) ∧
      (findByCloud t u.cloudId = none →
        ∃ e', findByCloud (bulkUpsertRows t us n uu now).1 u.cloudId = some e' ∧
          e'.fields = u.fields ∧ n ≤ e'.id ∧
          (∃ m', e'.syncMeta = some m' ∧ m'.cloudId = some u.cloudId ∧
            m'.pendingSync = false ∧ m'.lastSyncedAt = some now)) := by
  intro us
  induction us with
  | nil => intro t n uu _ _ u hu; exact absurd hu (List.not_mem_nil u)
  | cons u0 us ih =>
      intro t n uu hnd hb u hu
      have hnd1 : u0.cloudId ∉ us.map (·.cloudId) := (List.nodup_cons.mp hnd).1
      have hnd2 : (us.map (·.cloudId)).Nodup := (List.nodup_cons.mp hnd).2
      rcases List.mem_cons.mp hu with rfl | hu'
      · -- u is the head: its own upsert happens first, and no later
        -- upsert touches its cloud id.
        constructor
        · intro e he
          obtain ⟨h1, _⟩ := upsertOne_found t u n uu now e he
          refine ⟨{ e with
            fields := u.fields,
            syncMeta := some ⟨metaIdOr e.syncMeta uu, some now, false,
              some u.cloudId⟩ }, ?_, rfl, rfl, ?_, ?_⟩
          · unfold bulkUpsertRows
            rw [bulkUpsertRows_findByCloud_not_mem now u.cloudId us hnd1 _ _ _, h1]
            exact replaceByCloud_findByCloud_self _ _ t e he (by simp [cloudIdOf])
          · intro m hm
            exact ⟨_, rfl, by rw [hm, metaIdOr]⟩
          · exact ⟨_, rfl, rfl, rfl, rfl⟩
        · intro he
          obtain ⟨h1, _⟩ := upsertOne_not_found t u n uu now he
          refine ⟨⟨n, u.fields, some ⟨uu, some now, false, some u.cloudId⟩⟩,
            ?_, rfl, le_refl n, ⟨_, rfl, rfl, rfl, rfl⟩⟩
          unfold bulkUpsertRows
          rw [bulkUpsertRows_findByCloud_not_mem now u.cloudId us hnd1 _ _ _, h1]
          unfold findByCloud
          rw [List.find?_append]
          have hn : findByCloud t u.cloudId = none := he
          unfold findByCloud at hn
          rw [hn]
          simp [cloudIdOf]
      · -- u sits in the tail: the head upsert concerns a different cloud
        -- id, so lookups for u transfer across it.
        have hne : u.cloudId ≠ u0.cloudId := by
          intro hx
          exact hnd1 (hx ▸ List.mem_map_of_mem (·.cloudId) hu')
        obtain ⟨hb1, hn1⟩ := upsertOne_idBound t u0 n uu now hb
        have htrans := upsertOne_findByCloud_ne t u0 n uu now u.cloudId hne
        have ihx := ih (upsertOne t u0 n uu now).1 (upsertOne t u0 n uu now).2.1
          (upsertOne t u0 n uu now).2.2 hnd2 hb1 u hu'
        constructor
        · intro e he
          have he1 : findByCloud (upsertOne t u0 n uu now).1 u.cloudId = some e := by
            rw [htrans]; exact he
          obtain ⟨e', h1, h2, h3, h4, h5⟩ := ihx.1 e he1
          refine ⟨e', ?_, h2, h3, h4, h5⟩
          unfold bulkUpsertRows
          exact h1
        · intro he
          have he1 : findByCloud (upsertOne t u0 n uu now).1 u.cloudId = none := by
            rw [htrans]; exact he
          obtain ⟨e', h1, h2, h3, h4⟩ := ihx.2 he1
          refine ⟨e', ?_, h2, le_trans hn1 h3, h4⟩
          unfold bulkUpsertRows
          exact h1

/-- Claim C2: `bulkUpsertReceipts` / `bulkUpsertItems` upsert each
incoming remote record keyed by cloud id: when a local row with that
cloud id exists, its business fields are overwritten by the remote
record's fields (server wins) while its local primary key and opaque
`syncMeta.id` are preserved and its metadata is refreshed
(synced-now, not pending, that cloud id); when no local row has the cloud
id, a new local row (a fresh primary key unused by any existing row) is
inserted with the remote fields. The pulled snapshot's cloud ids are
distinct (they are server primary keys) and local primary keys are below
the autoincrement supply. -/
theorem bulkUpsert_server_wins_keyed_by_cloudId (db : DB) (now : Nat)
    (usR : List (UpsertRec ReceiptFields)) (usI : List (UpsertRec ItemFields))
    (hndR : (usR.map (·.cloudId)).Nodup)
    (hbR : ∀ r ∈ db.receipts, r.id < db.nextReceiptId)
    (hndI : (usI.map (·.cloudId)).Nodup)
    (hbI : ∀ i ∈ db.items, i.id < db.nextItemId) :
    (∀ u ∈ usR,
      (∀ e, findByCloud db.receipts u.cloudId = some e →
        ∃ e', findByCloud (bulkUpsertReceipts db usR now).receipts u.cloudId = some e' ∧
          e'.fields = u.fields ∧ e'.id = e.id ∧
          (∀ m, e.syncMeta = some m → ∃ m', e'.syncMeta = some m' ∧ m'.id = m.id) ∧
          (∃ m', e'.syncMeta = some m' ∧ m'.cloudId = some u.cloudId ∧
            m'.pendingSync = false ∧ m'.lastSyncedAt = some now)) ∧
      (findByCloud db.receipts u.cloudId = none →
        ∃ e', findByCloud (bulkUpsertReceipts db usR now).receipts u.cloudId = some e' ∧
          e'.fields = u.fields ∧ (∀ r ∈ db.receipts, r.id ≠ e'.id) ∧
          (∃ m', e'.syncMeta = some m' ∧ m'.cloudId = some u.cloudId ∧
            m'.pendingSync = false ∧ m'.lastSyncedAt = some now))) ∧
    (∀ u ∈ usI,
      (∀ e, findByCloud db.items u.cloudId = some e →
        ∃ e', findByCloud (bulkUpsertItems db usI now).items u.cloudId = some e' ∧
          e'.fields = u.fields ∧ e'.id = e.id ∧
          (∀ m, e.syncMeta = some m → ∃ m', e'.syncMeta = some m' ∧ m'.id = m.id) ∧
          (∃ m', e'.syncMeta = some m' ∧ m'.cloudId = some u.cloudId ∧
            m'.pendingSync = false ∧ m'.lastSyncedAt = some now)) ∧
      (findByCloud db.items u.cloudId = none →
        ∃ e', findByCloud (bulkUpsertItems db usI now).items u.cloudId = some e' ∧
          e'.fields = u.fields ∧ (∀ i ∈ db.items, i.id ≠ e'.id) ∧
          (∃ m', e'.syncMeta = some m' ∧ m'.cloudId = some u.cloudId ∧
            m'.pendingSync = false ∧ m'.lastSyncedAt = some now))) := by
  constructor
  · intro u hu
    obtain ⟨hfound, hnone⟩ :=
      bulkUpsertRows_upserts_by_cloudId now usR db.receipts
        db.nextReceiptId db.nextUuid hndR hbR u hu
    refine ⟨hfound, ?_⟩
    intro he
    obtain ⟨e', h1, h2, h3, h4⟩ := hnone he
    exact ⟨e', h1, h2, fun r hr => Nat.ne_of_lt (lt_of_lt_of_le (hbR r hr) h3), h4⟩
  · intro u hu
    obtain ⟨hfound, hnone⟩ :=
      bulkUpsertRows_upserts_by_cloudId now usI db.items
        db.nextItemId db.nextUuid hndI hbI u hu
    refine ⟨hfound, ?_⟩
    intro he
    obtain ⟨e', h1, h2, h3, h4⟩ := hnone he
    exact ⟨e', h1, h2, fun i hi => Nat.ne_of_lt (lt_of_lt_of_le (hbI i hi) h3), h4⟩

/-- Incoming remote receipt whose cloud id matches the stored receipt. -/
def upsRW : List (UpsertRec ReceiptFields) :=
  [⟨⟨2000, 9, none, some "shop", false⟩, "c7"⟩]

/-- Witness for C2: upserting a pulled record with cloud id "c7" into a
database already holding that cloud id. -/
theorem bulkUpsert_server_wins_keyed_by_cloudId_witness :
    ((upsRW.map (·.cloudId)).Nodup ∧
     (∀ r ∈ dbC7.receipts, r.id < dbC7.nextReceiptId) ∧
     ((([] : List (UpsertRec ItemFields)).map (·.cloudId)).Nodup) ∧
     (∀ i ∈ dbC7.items, i.id < dbC7.nextItemId)) ∧
    ((∀ u ∈ upsRW,
      (∀ e, findByCloud dbC7.receipts u.cloudId = some e →
        ∃ e', findByCloud (bulkUpsertReceipts dbC7 upsRW 99).receipts u.cloudId = some e' ∧
          e'.fields = u.fields ∧ e'.id = e.id ∧
          (∀ m, e.syncMeta = some m → ∃ m', e'.syncMeta = some m' ∧ m'.id = m.id) ∧
          (∃ m', e'.syncMeta = some m' ∧ m'.cloudId = some u.cloudId ∧
            m'.pendingSync = false ∧ m'.lastSyncedAt = some 99)) ∧
      (findByCloud dbC7.receipts u.cloudId = none →
        ∃ e', findByCloud (bulkUpsertReceipts dbC7 upsRW 99).receipts u.cloudId = some e' ∧
          e'.fields = u.fields ∧ (∀ r ∈ dbC7.receipts, r.id ≠ e'.id) ∧
          (∃ m', e'.syncMeta = some m' ∧ m'.cloudId = some u.cloudId ∧
            m'.pendingSync = false ∧ m'.lastSyncedAt = some 99))) ∧
    (∀ u ∈ ([] : List (UpsertRec ItemFields)),
      (∀ e, findByCloud dbC7.items u.cloudId = some e →
        ∃ e', findByCloud (bulkUpsertItems dbC7 [] 99).items u.cloudId = some e' ∧
          e'.fields = u.fields ∧ e'.id = e.id ∧
          (∀ m, e.syncMeta = some m → ∃ m', e'.syncMeta = some m' ∧ m'.id = m.id) ∧
          (∃ m', e'.syncMeta = some m' ∧ m'.cloudId = some u.cloudId ∧
            m'.pendingSync = false ∧ m'.lastSyncedAt = some 99)) ∧
      (findByCloud dbC7.items u.cloudId = none →
        ∃ e', findByCloud (bulkUpsertItems dbC7 [] 99).items u.cloudId = some e' ∧
          e'.fields = u.fields ∧ (∀ i ∈ dbC7.items, i.id ≠ e'.id) ∧
          (∃ m', e'.syncMeta = some m' ∧ m'.cloudId = some u.cloudId ∧
            m'.pendingSync = false ∧ m'.lastSyncedAt = some 99)))) :=
  ⟨⟨by decide, by decide, by decide, by decide⟩,
   bulkUpsert_server_wins_keyed_by_cloudId dbC7 99 upsRW []
     (by decide) (by decide) (by decide) (by decide)⟩

theorem bulkUpsertReceipts_receipts (db : DB) (us : List (UpsertRec ReceiptFields))
    (now : Nat) : (bulkUpsertReceipts db us now).receipts =
      (bulkUpsertRows db.receipts us db.nextReceiptId db.nextUuid now).1 := rfl

theorem bulkUpsertReceipts_items (db : DB) (us : List (UpsertRec ReceiptFields))
    (now : Nat) : (bulkUpsertReceipts db us now).items = db.items := rfl

theorem bulkUpsertItems_items (db : DB) (us : List (UpsertRec ItemFields))
    (now : Nat) : (bulkUpsertItems db us now).items =
      (bulkUpsertRows db.items us db.nextItemId db.nextUuid now).1 := rfl

theorem bulkUpsertItems_receipts (db : DB) (us : List (UpsertRec ItemFields))
    (now : Nat) : (bulkUpsertItems db us now).receipts = db.receipts := rfl

theorem markSettingsSynced_receipts (db : DB) (c : String) (now : Nat) :
    (markSettingsSynced db c now).receipts = db.receipts := by
  unfold markSettingsSynced
  split <;> rfl

theorem markSettingsSynced_items (db : DB) (c : String) (now : Nat) :
    (markSettingsSynced db c now).items = db.items := by
  unfold markSettingsSynced
  split <;> rfl

theorem markSettingsSynced_syncQueue (db : DB) (c : String) (now : Nat) :
    (markSettingsSynced db c now).syncQueue = db.syncQueue := by
  unfold markSettingsSynced
  split <;> rfl

theorem markSettingsSynced_dataChangedEvents (db : DB) (c : String) (now : Nat) :
    (markSettingsSynced db c now).dataChangedEvents = db.dataChangedEvents := by
  unfold markSettingsSynced
  split <;> rfl

theorem updateSettings_receipts (db : DB) (s : SettingsUpdate) (now : Nat) :
    (updateSettings db s now).receipts = db.receipts := by
  unfold updateSettings queueSync
  split <;> rfl

theorem updateSettings_items (db : DB) (s : SettingsUpdate) (now : Nat) :
    (updateSettings db s now).items = db.items := by
  unfold updateSettings queueSync
  split <;> rfl

theorem updateSettings_syncQueue (db : DB) (s : SettingsUpdate) (now : Nat) :
    (updateSettings db s now).syncQueue = db.syncQueue ++
      [⟨db.nextQueueId, .settings, "user_settings",
        (if db.settings.isSome then SyncAction.update else SyncAction.create),
        .settingsData s, now, 0⟩] := by
  unfold updateSettings queueSync
  split <;> rfl

theorem updateSettings_dataChangedEvents (db : DB) (s : SettingsUpdate) (now : Nat) :
    (updateSettings db s now).dataChangedEvents = db.dataChangedEvents + 1 := by
  unfold updateSettings queueSync
  split <;> rfl

/-- A row with no cloud id is carried through a whole bulk upsert
untouched: no incoming record can match it and inserts only append. -/
theorem mem_bulkUpsertRows_of_cloud_none {α : Type} (now : Nat) :
    ∀ (us : List (UpsertRec α)) (t : List (LocalRec α)) (n uu : Nat) (r : LocalRec α),
      r ∈ t → cloudIdOf r = none → r ∈ (bulkUpsertRows t us n uu now).1
  | [], _, _, _, _, hr, _ => hr
  | u :: us, t, n, uu, r, hr, hc => by
      unfold bulkUpsertRows
      apply mem_bulkUpsertRows_of_cloud_none now us _ _ _ _ _ hc
      cases he : findByCloud t u.cloudId with
      | some e =>
          rw [(upsertOne_found t u n uu now e he).1]
          exact mem_replaceByCloud_of_ne _ _ _ _ hr (by simp [hc])
      | none =>
          rw [(upsertOne_not_found t u n uu now he).1]
          exact List.mem_append_left _ hr

/-- Rows survive `deleteRowsByCloudIds` only from the original table. -/
theorem mem_of_mem_deleteRowsByCloudIds {α : Type} (t : List (LocalRec α))
    (ids : List String) (r : LocalRec α) (hr : r ∈ deleteRowsByCloudIds t ids) :
    r ∈ t := by
  unfold deleteRowsByCloudIds at hr
  split at hr
  · exact hr
  · exact (List.mem_filter.mp hr).1

/-- A synced row whose (nonempty) cloud id vanished from the snapshot
does not survive the deletion-propagation step. -/
theorem pruneStale_removes_vanished {α : Type} (t : List (LocalRec α))
    (cloudIds : List String) (c : String) (hc : c ≠ "") (hmem : c ∉ cloudIds) :
    ∀ r' ∈ pruneStale t cloudIds, cloudIdOf r' ≠ some c := by
  intro r' hr' hcl
  have htr : truthyStr (some c) = true := by
    simp [truthyStr, truthyOf, hc]
  have hmemt : r' ∈ t := by
    unfold pruneStale at hr'
    split at hr'
    · exact mem_of_mem_deleteRowsByCloudIds _ _ _ hr'
    · exact hr'
  have hsync : r' ∈ getSyncedRows t :=
    List.mem_filter.mpr ⟨hmemt, by rw [hcl]; exact htr⟩
  have hcond : (truthyStr (cloudIdOf r') &&
      !(cloudIds.contains ((cloudIdOf r').getD ""))) = true := by
    rw [hcl]
    simp [htr, hmem]
  have hin : c ∈ staleIds t cloudIds := by
    unfold staleIds
    refine List.mem_map.mpr ⟨r', List.mem_filter.mpr ⟨hsync, hcond⟩, ?_⟩
    rw [hcl]
    rfl
  have hlen : 0 < (staleIds t cloudIds).length :=
    List.length_pos.mpr (List.ne_nil_of_mem hin)
  unfold pruneStale at hr'
  rw [if_pos hlen] at hr'
  unfold deleteRowsByCloudIds at hr'
  rw [if_neg (by simpa [List.isEmpty_iff] using List.ne_nil_of_mem hin)] at hr'
  have hpred := (List.mem_filter.mp hr').2
  rw [hcl] at hpred
  simp at hpred
  exact hpred hin

/-- A row with no cloud id is not in the cloud-id index and survives the
deletion-propagation step unchanged. -/
theorem pruneStale_keeps_cloudless {α : Type} (t : List (LocalRec α))
    (cloudIds : List String) (r : LocalRec α) (hr : r ∈ t)
    (hc : cloudIdOf r = none) : r ∈ pruneStale t cloudIds := by
  unfold pruneStale
  split
  · unfold deleteRowsByCloudIds
    split
    · exact hr
    · exact List.mem_filter.mpr ⟨hr, by simp [hc]⟩
  · exact hr

theorem mem_mergeUpserted_receipts_of_cloud_none (snap : CloudSnapshot) (db : DB)
    (now : Nat) (r : LocalReceipt) (hr : r ∈ db.receipts) (hc : cloudIdOf r = none) :
    r ∈ (mergeUpserted snap db now).receipts := by
  unfold mergeUpserted
  split <;>
    simp only [markSettingsSynced_receipts, updateSettings_receipts,
      bulkUpsertItems_receipts, bulkUpsertReceipts_receipts] <;>
    exact mem_bulkUpsertRows_of_cloud_none now _ _ _ _ r hr hc

theorem mem_mergeUpserted_items_of_cloud_none (snap : CloudSnapshot) (db : DB)
    (now : Nat) (i : LocalItem) (hi : i ∈ db.items) (hc : cloudIdOf i = none) :
    i ∈ (mergeUpserted snap db now).items := by
  unfold mergeUpserted
  split <;>
    simp only [markSettingsSynced_items, updateSettings_items, bulkUpsertItems_items,
      bulkUpsertReceipts_items] <;>
    exact mem_bulkUpsertRows_of_cloud_none now _ _ _ _ i hi hc

theorem mergePhase_receipts (snap : CloudSnapshot) (db : DB) (now : Nat) :
    (mergePhase snap db now).receipts =
      pruneStale (mergeUpserted snap db now).receipts
        (snap.receipts.map (fun r : CloudReceipt => r.cloudId)) := rfl

theorem mergePhase_items (snap : CloudSnapshot) (db : DB) (now : Nat) :
    (mergePhase snap db now).items =
      pruneStale (mergeUpserted snap db now).items
        (snap.items.map (fun i : CloudItem => i.cloudId)) := rfl

/-- Claim C3: after the merge-and-prune phase of `performFullSync()`, no
local receipt or item row carries a (nonempty) cloud id that is absent
from the pulled remote snapshot — such rows have been pruned — while
every receipt or item row with no cloud id survives the phase
untouched. -/
theorem mergePhase_deletion_propagation (snap : CloudSnapshot) (db : DB) (now : Nat) :
    (∀ c : String, c ≠ "" → c ∉ snap.receipts.map (fun r : CloudReceipt => r.cloudId) →
      ∀ r' ∈ (mergePhase snap db now).receipts, cloudIdOf r' ≠ some c) ∧
    (∀ c : String, c ≠ "" → c ∉ snap.items.map (fun i : CloudItem => i.cloudId) →
      ∀ i' ∈ (mergePhase snap db now).items, cloudIdOf i' ≠ some c) ∧
    (∀ r ∈ db.receipts, cloudIdOf r = none → r ∈ (mergePhase snap db now).receipts) ∧
    (∀ i ∈ db.items, cloudIdOf i = none → i ∈ (mergePhase snap db now).items) := by
  refine ⟨?_, ?_, ?_, ?_⟩
  · intro c hc hmem r' hr'
    rw [mergePhase_receipts] at hr'
    exact pruneStale_removes_vanished _ _ c hc hmem r' hr'
  · intro c hc hmem i' hi'
    rw [mergePhase_items] at hi'
    exact pruneStale_removes_vanished _ _ c hc hmem i' hi'
  · intro r hr hc
    rw [mergePhase_receipts]
    exact pruneStale_keeps_cloudless _ _ r
      (mem_mergeUpserted_receipts_of_cloud_none snap db now r hr hc) hc
  · intro i hi hc
    rw [mergePhase_items]
    exact pruneStale_keeps_cloudless _ _ i
      (mem_mergeUpserted_items_of_cloud_none snap db now i hi hc) hc

/-- Witness for C3: cloud id "gone" is absent from the snapshot, so no
merged row still carries it; the never-synced receipt survives. -/
theorem mergePhase_deletion_propagation_witness :
    (("gone" : String) ≠ "" ∧
     "gone" ∉ snapW.receipts.map (fun r : CloudReceipt => r.cloudId)) ∧
    (∀ r' ∈ (mergePhase snapW dbW 5).receipts, cloudIdOf r' ≠ some "gone") ∧
    ((⟨2, receiptFieldsW, none⟩ : LocalReceipt) ∈ (mergePhase snapW dbW 5).receipts) :=
  ⟨⟨by decide, by decide⟩,
   fun r' hr' => (mergePhase_deletion_propagation snapW dbW 5).1 "gone"
     (by decide) (by decide) r' hr',
   (mergePhase_deletion_propagation snapW dbW 5).2.2.1 ⟨2, receiptFieldsW, none⟩
     (by decide) rfl⟩

theorem markReceiptSynced_dataChangedEvents (db : DB) (lid : Nat) (c : String)
    (now : Nat) :
    (markReceiptSynced db lid c now).dataChangedEvents = db.dataChangedEvents := rfl

theorem markItemSynced_dataChangedEvents (db : DB) (lid : Nat) (c : String)
    (now : Nat) :
    (markItemSynced db lid c now).dataChangedEvents = db.dataChangedEvents := rfl

theorem removeSyncItem_dataChangedEvents (db : DB) (qid : Nat) :
    (removeSyncItem db qid).dataChangedEvents = db.dataChangedEvents := rfl

/-- Replaying one queue entry fires no data-changed notification. -/
theorem processSyncItem_dataChangedEvents (api : ApiClient) (db : DB)
    (q : SyncQueueItem) (now : Nat) :
    (processSyncItem api db q now).2.1.dataChangedEvents = db.dataChangedEvents := by
  rcases q with ⟨qid, et, eid, a, d, ca, rc⟩
  cases et <;> cases a <;>
    simp only [processSyncItem, syncReceipt, syncItem, syncSettings] <;>
    (repeat' split) <;>
    simp [markReceiptSynced, markItemSynced, markSettingsSynced_dataChangedEvents]

theorem drainQueue_dataChangedEvents (api : ApiClient) (now : Nat) :
    ∀ (qs : List SyncQueueItem) (db : DB),
      (drainQueue api now db qs).1.dataChangedEvents = db.dataChangedEvents
  | [], _ => rfl
  | q :: qs, db => by
      unfold drainQueue
      rw [drainQueue_dataChangedEvents api now qs _]
      rw [removeSyncItem_dataChangedEvents, processSyncItem_dataChangedEvents]

theorem pushReceiptsLoop_dataChangedEvents (api : ApiClient) (now : Nat) :
    ∀ (rs : List LocalReceipt) (db : DB),
      (pushReceiptsLoop api now db rs).1.dataChangedEvents = db.dataChangedEvents
  | [], _ => rfl
  | r :: rs, db => by
      unfold pushReceiptsLoop
      rw [pushReceiptsLoop_dataChangedEvents api now rs _]
      split <;> simp [markReceiptSynced]

theorem pushItemsLoop_dataChangedEvents (api : ApiClient) (now : Nat) :
    ∀ (is2 : List LocalItem) (db : DB),
      (pushItemsLoop api now db is2).1.dataChangedEvents = db.dataChangedEvents
  | [], _ => rfl
  | i :: is2, db => by
      unfold pushItemsLoop
      rw [pushItemsLoop_dataChangedEvents api now is2 _]
      split <;> simp [markItemSynced]

/-- The phase-1 push fires no data-changed notification: it only stamps
sync metadata and drains the queue. -/
theorem pushLocalChanges_dataChangedEvents (api : ApiClient) (db : DB) (now : Nat) :
    (pushLocalChanges api db now).1.dataChangedEvents = db.dataChangedEvents := by
  unfold pushLocalChanges
  rw [drainQueue_dataChangedEvents]
  split
  · split
    · rw [pushItemsLoop_dataChangedEvents, pushReceiptsLoop_dataChangedEvents]
    · dsimp only
      split <;>
        simp [markSettingsSynced_dataChangedEvents, pushItemsLoop_dataChangedEvents,
          pushReceiptsLoop_dataChangedEvents]
  · rw [pushItemsLoop_dataChangedEvents, pushReceiptsLoop_dataChangedEvents]

/-- When the snapshot carries settings, the merge phase appends exactly
one settings queue entry (an `update` when a local settings row existed,
a `create` otherwise) carrying the pulled budget. -/
theorem mergePhase_syncQueue_of_settings (snap : CloudSnapshot) (db : DB) (now : Nat)
    (cs : CloudSettings) (hs : snap.settings = some cs) :
    (mergePhase snap db now).syncQueue = db.syncQueue ++
      [⟨db.nextQueueId, .settings, "user_settings",
        (if db.settings.isSome then SyncAction.update else SyncAction.create),
        .settingsData ⟨some cs.budget⟩, now, 0⟩] := by
  show (mergeUpserted snap db now).syncQueue = _
  unfold mergeUpserted
  rw [hs]
  rw [markSettingsSynced_syncQueue, updateSettings_syncQueue]
  rfl

/-- When the snapshot carries settings, the merge phase fires exactly one
data-changed notification (from `updateSettings`). -/
theorem mergePhase_dataChangedEvents_of_settings (snap : CloudSnapshot) (db : DB)
    (now : Nat) (cs : CloudSettings) (hs : snap.settings = some cs) :
    (mergePhase snap db now).dataChangedEvents = db.dataChangedEvents + 1 := by
  show (mergeUpserted snap db now).dataChangedEvents = _
  unfold mergeUpserted
  rw [hs]
  rw [markSettingsSynced_dataChangedEvents, updateSettings_dataChangedEvents]
  rfl

/-- Claim C10: whenever `performFullSync()` succeeds with a pulled
snapshot containing a settings object, the merge routes the settings
through the gateway's `updateSettings`, which enqueues a fresh `update`
or `create` settings queue entry carrying the pulled budget and fires a
data-changed notification — so immediately after the fully successful
full sync the SyncQueue is non-empty and the recomputed pending-change
count is at least 1. -/
theorem performFullSync_settings_requeue (api : ApiClient) (e : EngineState) (db : DB)
    (now : Nat) (snap : CloudSnapshot) (cs : CloudSettings) (err : Option String)
    (hon : e.status.isOnline = true)
    (hfa : api.fetchAll = ⟨true, some snap, err⟩)
    (hs : snap.settings = some cs) :
    (performFullSync api e db now).returned = true ∧
    (performFullSync api e db now).db.syncQueue ≠ [] ∧
    1 ≤ (performFullSync api e db now).engine.status.pendingChanges ∧
    (performFullSync api e db now).db.dataChangedEvents = db.dataChangedEvents + 1 ∧
    (∃ q ∈ (performFullSync api e db now).db.syncQueue,
      q.entityType = EntityType.settings ∧
      (q.action = SyncAction.update ∨ q.action = SyncAction.create) ∧
      q.data = Payload.settingsData ⟨some cs.budget⟩) := by
  have hq := mergePhase_syncQueue_of_settings snap (pushLocalChanges api db now).1 now cs hs
  have hd := mergePhase_dataChangedEvents_of_settings snap
    (pushLocalChanges api db now).1 now cs hs
  have hp := pushLocalChanges_dataChangedEvents api db now
  unfold performFullSync
  simp only [hon, hfa, Bool.not_true, Bool.false_eq_true, if_false]
  refine ⟨trivial, ?_, ?_, ?_, ?_⟩
  · rw [hq]
    simp
  · rw [hq]
    simp
  · rw [hd, hp]
  · rw [hq]
    refine ⟨⟨(pushLocalChanges api db now).1.nextQueueId, .settings, "user_settings",
      (if (pushLocalChanges api db now).1.settings.isSome then SyncAction.update
       else SyncAction.create), .settingsData ⟨some cs.budget⟩, now, 0⟩,
      List.mem_append_right _ (List.mem_singleton.mpr rfl), rfl, ?_, rfl⟩
    split <;> simp

/-- Witness for C10: a fully successful full sync against `okApi` (whose
snapshot carries settings) leaves the queue non-empty with pending count
at least 1. -/
theorem performFullSync_settings_requeue_witness :
    (engineOnline.status.isOnline = true ∧
     okApi.fetchAll = ⟨true, some snapOk, none⟩ ∧
     snapOk.settings = some ⟨"srv3", 750⟩) ∧
    ((performFullSync okApi engineOnline dbC1 7).returned = true ∧
     (performFullSync okApi engineOnline dbC1 7).db.syncQueue ≠ [] ∧
     1 ≤ (performFullSync okApi engineOnline dbC1 7).engine.status.pendingChanges ∧
     (performFullSync okApi engineOnline dbC1 7).db.dataChangedEvents =
       dbC1.dataChangedEvents + 1 ∧
     (∃ q ∈ (performFullSync okApi engineOnline dbC1 7).db.syncQueue,
       q.entityType = EntityType.settings ∧
       (q.action = SyncAction.update ∨ q.action = SyncAction.create) ∧
       q.data = Payload.settingsData ⟨some 750⟩)) :=
  ⟨⟨rfl, rfl, rfl⟩,
   performFullSync_settings_requeue okApi engineOnline dbC1 7 snapOk ⟨"srv3", 750⟩ none
     rfl rfl rfl⟩

end ExpenseTracker
